import Mathlib

/-!
Verification of the offline cache manager of the BharatVRsh service worker
(Web Platform/sw.js): request classification, tiered fetch strategies,
cache size governance, deferred sync queues, lifecycle cleanup and the
heritage-bundle control message.  The service worker is embedded shallowly:
the platform cache storage becomes an explicit state of three tiers, the
network becomes an oracle from URL keys to optional responses (none models
a rejected fetch), and each async handler becomes a pure function from
network oracle, cache state and request to an outcome.
-/

namespace SW

/-! ## String helpers

JavaScript string predicates (startsWith, endsWith, includes) modelled over
the character list of a Lean string so that they reduce in the kernel. -/

def strStartsWith (s p : String) : Bool := p.data.isPrefixOf s.data

def strEndsWith (s p : String) : Bool := p.data.isSuffixOf s.data

def listContains (p : List Char) : List Char → Bool
  | [] => p.isPrefixOf []
  | c :: t => p.isPrefixOf (c :: t) || listContains p t

/-- JavaScript String.prototype.includes. -/
def strIncludes (s p : String) : Bool := listContains p.data s.data

/-! ## Data model -/

/-- An HTTP response: status code, body and content type header.
Response.ok in the fetch API means the status is in the 2xx range. -/
structure Response where
  status : Nat
  body : String
  contentType : String
deriving DecidableEq, Repr

/-- Response.ok of the fetch API: status in the range 200..299. -/
def Response.ok (r : Response) : Bool := 200 ≤ r.status && r.status < 300

/-- The components of a parsed URL that sw.js inspects. -/
structure Url where
  protocol : String
  hostname : String
  pathname : String
deriving DecidableEq, Repr

/-- A fetch-event request: method, URL and mode (navigate or not). -/
structure Request where
  method : String
  url : Url
  mode : String
deriving DecidableEq, Repr

/-- Cache keys: requests and cache.put calls are keyed by URL.  The href is
the serialization used as the key into a tier and into the network oracle. -/
def Url.href (u : Url) : String := u.protocol ++ "//" ++ u.hostname ++ u.pathname

def Request.key (r : Request) : String := r.url.href

/-- One cache tier: an insertion-ordered association list from URL keys to
stored responses (the Cache API keeps one entry per key; put overwrites). -/
abbrev Tier := List (String × Response)

/-- Cache.put: overwrite the entry of an existing key in place, otherwise
append the new entry, preserving insertion order. -/
def Tier.put (t : Tier) (k : String) (r : Response) : Tier :=
  if t.any (fun e => e.1 == k) then
    t.map (fun e => if e.1 == k then (k, r) else e)
  else
    t ++ [(k, r)]

/-- Cache.match within a single tier. -/
def Tier.lookup (t : Tier) (k : String) : Option Response :=
  (t.find? (fun e => e.1 == k)).map Prod.snd

/-- The persisted cache storage: the three named tiers of sw.js. -/
structure CacheState where
  static : Tier
  dynamic : Tier
  heritage : Tier
deriving DecidableEq, Repr

/-- caches.match: search every cache of the origin for the key. -/
def CacheState.matchAll (s : CacheState) (k : String) : Option Response :=
  match s.static.lookup k with
  | some r => some r
  | none =>
    match s.dynamic.lookup k with
    | some r => some r
    | none => s.heritage.lookup k

/-- The network oracle: none models a rejected fetch (no connectivity);
some r models a settled response, which may or may not be ok. -/
abbrev Network := String → Option Response

/-! ## Constants of sw.js -/

def STATIC_CACHE : String := "bharatvrsh-static-v1.2.0"

def DYNAMIC_CACHE : String := "bharatvrsh-dynamic-v1.2.0"

def HERITAGE_CACHE : String := "bharatvrsh-heritage-v1.2.0"

def STATIC_ASSETS : List String :=
  [ "/"
  , "/index.html"
  , "/manifest.json"
  , "/styles/main.css"
  , "/styles/heritage.css"
  , "/styles/ar-viewer.css"
  , "/scripts/app.js"
  , "/scripts/ar-viewer.js"
  , "/scripts/heritage-sites.js"
  , "/scripts/tours.js"
  , "/scripts/utils.js"
  , "/assets/logo.svg"
  , "/assets/favicon.ico"
  , "/assets/icons/icon-192x192.png"
  , "/assets/icons/icon-512x512.png"
  , "https://fonts.googleapis.com/css2?family=Inter:wght@300;400;500;600;700&family=Playfair+Display:wght@400;600;700&display=swap"
  , "https://fonts.googleapis.com/icon?family=Material+Icons"
  , "https://cdnjs.cloudflare.com/ajax/libs/three.js/r128/three.min.js" ]

def API_ENDPOINTS : List String :=
  [ "/api/heritage/sites", "/api/tours", "/api/guides" ]

/-! ## Request classifier -/

/-- isStaticAsset of sw.js. -/
def isStaticAsset (url : Url) : Bool :=
  STATIC_ASSETS.any (fun asset => strEndsWith url.pathname asset) ||
  strIncludes url.pathname "/styles/" ||
  strIncludes url.pathname "/scripts/" ||
  strIncludes url.pathname "/assets/icons/" ||
  url.hostname == "fonts.googleapis.com" ||
  url.hostname == "fonts.gstatic.com" ||
  url.hostname == "cdnjs.cloudflare.com"

/-- isAPIRequest of sw.js. -/
def isAPIRequest (url : Url) : Bool :=
  strStartsWith url.pathname "/api/" ||
  API_ENDPOINTS.any (fun endpoint => strStartsWith url.pathname endpoint)

/-- isHeritageContent of sw.js. -/
def isHeritageContent (url : Url) : Bool :=
  strIncludes url.pathname "/assets/images/" ||
  strIncludes url.pathname "/assets/models/" ||
  strIncludes url.pathname "/assets/audio/" ||
  strIncludes url.pathname "/assets/videos/"

/-! ## Handler outcomes -/

/-- What an async handler settles to.  success is a resolved response;
noResponse is a promise that resolved to undefined (respondWith then fails
with a network error); thrown is a rejected promise (the handler re-threw). -/
inductive HandlerResult
  | success (r : Response)
  | noResponse
  | thrown
deriving DecidableEq, Repr

/-- The full effect of running a handler: its settled result, the cache
state afterwards and whether fetch was called on the network. -/
structure Outcome where
  result : HandlerResult
  state : CacheState
  networkCalled : Bool
deriving DecidableEq, Repr

/-! ## Fetch strategies -/

/-- handleStaticAsset of sw.js: cache-first.  A cache hit is returned with
no network call; a miss fetches, stores ok responses into the static tier
and returns the network response.  In the catch branch the cache is
consulted again, then the offline page for navigations, else the error is
re-thrown; a missing offline page makes the handler resolve to undefined. -/
def handleStaticAsset (net : Network) (s : CacheState) (req : Request) : Outcome :=
  match s.matchAll req.key with
  | some cacheResponse => ⟨.success cacheResponse, s, false⟩
  | none =>
    match net req.key with
    | some networkResponse =>
      let s' :=
        if networkResponse.ok then
          { s with static := s.static.put req.key networkResponse }
        else s
      ⟨.success networkResponse, s', true⟩
    | none =>
      match s.matchAll req.key with
      | some cacheResponse => ⟨.success cacheResponse, s, true⟩
      | none =>
        if req.mode == "navigate" then
          match s.matchAll "/offline.html" with
          | some r => ⟨.success r, s, true⟩
          | none => ⟨.noResponse, s, true⟩
        else ⟨.thrown, s, true⟩

/-- The synthesized offline response of handleAPIRequest: a JSON body with
status 503. -/
def offlineApiResponse : Response :=
  { status := 503
  , body := "\x7b\"error\":\"Offline\",\"message\":\"This request is not available offline\"\x7d"
  , contentType := "application/json" }

/-- handleAPIRequest of sw.js: network-first.  Ok responses to GET requests
are stored in the dynamic tier; on network failure the cache is consulted,
and if it misses too a synthesized 503 JSON response is returned. -/
def handleAPIRequest (net : Network) (s : CacheState) (req : Request) : Outcome :=
  match net req.key with
  | some networkResponse =>
    let s' :=
      if networkResponse.ok && req.method == "GET" then
        { s with dynamic := s.dynamic.put req.key networkResponse }
      else s
    ⟨.success networkResponse, s', true⟩
  | none =>
    match s.matchAll req.key with
    | some cacheResponse => ⟨.success cacheResponse, s, true⟩
    | none => ⟨.success offlineApiResponse, s, true⟩

/-- handleHeritageContent of sw.js: cache-first into the heritage tier; on
total failure the error is re-thrown. -/
def handleHeritageContent (net : Network) (s : CacheState) (req : Request) : Outcome :=
  match s.matchAll req.key with
  | some cacheResponse => ⟨.success cacheResponse, s, false⟩
  | none =>
    match net req.key with
    | some networkResponse =>
      let s' :=
        if networkResponse.ok then
          { s with heritage := s.heritage.put req.key networkResponse }
        else s
      ⟨.success networkResponse, s', true⟩
    | none =>
      match s.matchAll req.key with
      | some cacheResponse => ⟨.success cacheResponse, s, true⟩
      | none => ⟨.thrown, s, true⟩

/-- The inline offline HTML document built in handleNavigation.  A Response
constructed without a status gets status 200. -/
def inlineOfflineHtml : Response :=
  { status := 200
  , body := "<!DOCTYPE html><html><head><title>Offline</title></head><body><h1>Offline</h1><p>Please check your internet connection.</p></body></html>"
  , contentType := "text/html" }

/-- handleNavigation of sw.js: network-first; on failure serve the cached
/index.html shell.  The final line of the source is
caches.match of /offline.html joined to the inline document with the
JavaScript or-operator; caches.match returns a promise, which is always
truthy, so the or-operator always picks the promise: when /offline.html is
not cached the handler resolves to undefined (noResponse) and the inline
document is dead code. -/
def handleNavigation (net : Network) (s : CacheState) (req : Request) : Outcome :=
  match net req.key with
  | some networkResponse => ⟨.success networkResponse, s, true⟩
  | none =>
    match s.matchAll "/index.html" with
    | some cacheResponse => ⟨.success cacheResponse, s, true⟩
    | none =>
      match s.matchAll "/offline.html" with
      | some r => ⟨.success r, s, true⟩
      | none => ⟨.noResponse, s, true⟩

/-- handleDefault of sw.js: network-first into the dynamic tier, falling
back to any cached copy, else re-throwing the failure. -/
def handleDefault (net : Network) (s : CacheState) (req : Request) : Outcome :=
  match net req.key with
  | some networkResponse =>
    let s' :=
      if networkResponse.ok then
        { s with dynamic := s.dynamic.put req.key networkResponse }
      else s
    ⟨.success networkResponse, s', true⟩
  | none =>
    match s.matchAll req.key with
    | some cacheResponse => ⟨.success cacheResponse, s, true⟩
    | none => ⟨.thrown, s, true⟩

/-- handleFetchRequest of sw.js: dispatch on the classifier, first match
wins, in source order. -/
def handleFetchRequest (net : Network) (s : CacheState) (req : Request) : Outcome :=
  if isStaticAsset req.url then handleStaticAsset net s req
  else if isAPIRequest req.url then handleAPIRequest net s req
  else if isHeritageContent req.url then handleHeritageContent net s req
  else if req.mode == "navigate" then handleNavigation net s req
  else handleDefault net s req

/-- What the fetch event listener decides: passthrough means the listener
returned without calling respondWith, so the browser sends the request
straight to the network and no handler or cache is involved. -/
inductive FetchDecision
  | passthrough
  | respondWith (o : Outcome)
deriving DecidableEq, Repr

/-- The fetch event listener of sw.js: non-GET requests and non-http
protocols are skipped; everything else is answered by handleFetchRequest. -/
def fetchListener (net : Network) (s : CacheState) (req : Request) : FetchDecision :=
  if req.method != "GET" then .passthrough
  else if !(strStartsWith req.url.protocol "http") then .passthrough
  else .respondWith (handleFetchRequest net s req)

/-- The cache state after the fetch event: a passthrough leaves the cache
untouched. -/
def FetchDecision.stateAfter (d : FetchDecision) (s : CacheState) : CacheState :=
  match d with
  | .passthrough => s
  | .respondWith o => o.state

/-! ## Cache size governor -/

def MAX_CACHE_SIZE : Nat := 100 * 1024 * 1024

/-- The delete count of manageCacheSize.  The source computes
Math.floor of the double product of the length with 0.2; for every length
below 2 to the 53rd the double rounding error is under a quarter unit in
the last place, so the floor coincides with natural division by 5. -/
def deleteCountOf (n : Nat) : Nat := n / 5

/-- manageCacheSize of sw.js: when the reported storage usage exceeds
MAX_CACHE_SIZE, the first (oldest) twenty percent of the dynamic cache
keys are deleted; otherwise nothing happens.  The static and heritage
tiers are never touched. -/
def manageCacheSize (usage : Nat) (s : CacheState) : CacheState :=
  if usage > MAX_CACHE_SIZE then
    { s with dynamic := s.dynamic.drop (deleteCountOf s.dynamic.length) }
  else s

/-! ## Activation cleanup -/

/-- The condition of the activate listener: a cache name is deleted exactly
when it differs from all three current tier names. -/
def isStaleCache (name : String) : Bool :=
  name != STATIC_CACHE && name != DYNAMIC_CACHE && name != HERITAGE_CACHE

/-- The caches surviving activation: every name of the origin that is not
one of the three current tier names is deleted. -/
def activateSurvivors (cacheNames : List String) : List String :=
  cacheNames.filter (fun name => !(isStaleCache name))

/-- The caches deleted by activation. -/
def activateDeleted (cacheNames : List String) : List String :=
  cacheNames.filter (fun name => isStaleCache name)

/-! ## Deferred sync queues -/

/-- A pending action of the deferred write queue: identifier and payload. -/
structure Item where
  id : Nat
  payload : String
deriving DecidableEq, Repr

/-- removeStoredData of sw.js: remove the entries with the given id from
the store. -/
def removeStoredData (store : List Item) (i : Nat) : List Item :=
  store.filter (fun d => d.id != i)

/-- The for-loop shared by syncHeritageData and syncUserFeedback: walk
the snapshot of pending items; an item whose delivery succeeds is removed
from the store; an item whose delivery throws is caught and left in place,
and iteration continues with the next item. -/
def flushLoop (deliver : Item → Bool) : List Item → List Item → List Item
  | [], store => store
  | d :: rest, store =>
    flushLoop deliver rest (if deliver d then removeStoredData store d.id else store)

/-- syncHeritageData of sw.js: flush the heritage-updates store.  deliver
models the POST to the sync endpoint (true = resolved, false = rejected). -/
def syncHeritageData (deliver : Item → Bool) (store : List Item) : List Item :=
  flushLoop deliver store store

/-- syncUserFeedback of sw.js: flush the pending-feedback store with the
same per-item loop. -/
def syncUserFeedback (deliver : Item → Bool) (store : List Item) : List Item :=
  flushLoop deliver store store

/-! ## Heritage bundle control message -/

/-- The payload of a CACHE_HERITAGE_SITE message.  none models a null or
absent URL field; audioUrls may itself be absent. -/
structure SiteData where
  siteId : String
  imageUrl : Option String
  thumbnailUrl : Option String
  modelUrl : Option String
  audioUrls : Option (List (Option String))
deriving DecidableEq, Repr

/-- JavaScript truthiness of an optional string: null, undefined and the
empty string are falsy; filter Boolean drops exactly these. -/
def jsTruthy : Option String → Bool
  | none => false
  | some str => !(str == "")

/-- The urlsToCache list of cacheHeritageSite: image, thumbnail and model
URLs, then the spread audio URLs defaulting to the empty list, with the
falsy entries filtered out. -/
def urlsToCache (d : SiteData) : List String :=
  (([d.imageUrl, d.thumbnailUrl, d.modelUrl] ++ d.audioUrls.getD []).filter
    jsTruthy).filterMap id

/-- One step of cacheHeritageSite for a single URL: fetch it; an ok
response is put into the heritage tier; a rejected fetch or a non-ok
response leaves the cache alone (the per-URL catch swallows the error). -/
def cacheOneUrl (net : Network) (s : CacheState) (u : String) : CacheState :=
  match net u with
  | some r => if r.ok then { s with heritage := s.heritage.put u r } else s
  | none => s

/-- cacheHeritageSite of sw.js: every truthy URL of the bundle is fetched
and cached independently; no failure propagates to the message sender. -/
def cacheHeritageSite (net : Network) (s : CacheState) (d : SiteData) : CacheState :=
  (urlsToCache d).foldl (cacheOneUrl net) s

/-! ## Concrete fixtures used by witnesses -/

/-- A network oracle with no connectivity: every fetch rejects. -/
def noNet : Network := fun _ => none

/-- A cache storage with all three tiers empty. -/
def emptyCache : CacheState := ⟨[], [], []⟩

def okHtml : Response := ⟨200, "page", "text/html"⟩

def okCss : Response := ⟨200, "body \x7b margin: 0 \x7d", "text/css"⟩

def okJson : Response := ⟨200, "[]", "application/json"⟩

def serverError : Response := ⟨500, "error", "text/plain"⟩

/-- A top-level page navigation request. -/
def navRequest : Request := ⟨"GET", ⟨"https:", "bharatvrsh.example", "/tours-page"⟩, "navigate"⟩

def cssUrl : Url := ⟨"https:", "bharatvrsh.example", "/styles/main.css"⟩

def cssRequest : Request := ⟨"GET", cssUrl, "no-cors"⟩

/-- A network oracle that answers the stylesheet URL with a 200 and
rejects everything else. -/
def cssNet : Network := fun k => if k == cssUrl.href then some okCss else none

def apiUrl : Url := ⟨"https:", "bharatvrsh.example", "/api/heritage/sites"⟩

def apiRequest : Request := ⟨"GET", apiUrl, "cors"⟩

def postRequest : Request := ⟨"POST", apiUrl, "cors"⟩

/-- A cache storage whose dynamic tier holds six entries. -/
def sixDynamic : CacheState :=
  ⟨[], [("d1", okHtml), ("d2", okHtml), ("d3", okHtml), ("d4", okHtml),
        ("d5", okHtml), ("d6", okHtml)], []⟩

/-! ## Helper lemmas about tiers -/

theorem Tier.mem_put (t : Tier) (k : String) (r : Response) :
    ∀ e ∈ Tier.put t k r, e ∈ t ∨ e = (k, r) := by
  intro e he
  unfold Tier.put at he
  split at he
  · obtain ⟨a, ha, hae⟩ := List.mem_map.mp he
    by_cases h : (a.1 == k) = true
    · right
      rw [if_pos h] at hae
      exact hae.symm
    · left
      rw [if_neg h] at hae
      exact hae ▸ ha
  · rcases List.mem_append.mp he with h | h
    · exact Or.inl h
    · exact Or.inr (List.mem_singleton.mp h)

theorem Tier.put_mem_self (t : Tier) (k : String) (r : Response) :
    (k, r) ∈ Tier.put t k r := by
  unfold Tier.put
  split
  · rename_i h
    obtain ⟨a, ha, hak⟩ := List.any_eq_true.mp h
    exact List.mem_map.mpr ⟨a, ha, by rw [if_pos hak]⟩
  · exact List.mem_append.mpr (Or.inr (List.mem_singleton.mpr rfl))

theorem Tier.put_mem_of_ne (t : Tier) (k u : String) (r x : Response)
    (hu : u ≠ k) (hm : (u, x) ∈ t) : (u, x) ∈ Tier.put t k r := by
  unfold Tier.put
  split
  · refine List.mem_map.mpr ⟨(u, x), hm, ?_⟩
    rw [if_neg (by simpa using hu)]
  · exact List.mem_append.mpr (Or.inl hm)

/-! ## Claims about the cache size governor -/

/-- C5: a run of the cache size governor with usage above the ceiling
removes exactly the floor of one fifth of the pre-eviction dynamic entry
count (Math.floor of the product with 0.2 equals division by 5 on natural
counts), and the removed entries are the oldest by insertion order (the
remaining tier is the drop of that prefix); with usage at or below the
ceiling nothing is evicted. -/
theorem manageCacheSize_evicts_oldest_fifth (usage : Nat) (s : CacheState) :
    (usage > MAX_CACHE_SIZE →
      (manageCacheSize usage s).dynamic
          = s.dynamic.drop (s.dynamic.length / 5) ∧
      (manageCacheSize usage s).dynamic.length
          = s.dynamic.length - s.dynamic.length / 5 ∧
      s.dynamic = s.dynamic.take (s.dynamic.length / 5)
          ++ (manageCacheSize usage s).dynamic) ∧
    (usage ≤ MAX_CACHE_SIZE → manageCacheSize usage s = s) := by
  constructor
  · intro h
    unfold manageCacheSize deleteCountOf
    rw [if_pos h]
    refine ⟨rfl, ?_, ?_⟩
    · simp [List.length_drop]
    · simp [List.take_append_drop]
  · intro h
    unfold manageCacheSize
    rw [if_neg (by omega)]

/-- Witness for C5: with six dynamic entries and usage one byte above the
ceiling, exactly one (the oldest) entry is evicted; with usage zero the
state is untouched. -/
theorem manageCacheSize_evicts_oldest_fifth_witness :
    (manageCacheSize (MAX_CACHE_SIZE + 1) sixDynamic).dynamic
        = [("d2", okHtml), ("d3", okHtml), ("d4", okHtml),
           ("d5", okHtml), ("d6", okHtml)] ∧
    manageCacheSize 0 sixDynamic = sixDynamic := by
  constructor
  · have h := (manageCacheSize_evicts_oldest_fifth (MAX_CACHE_SIZE + 1) sixDynamic).1
      (by decide)
    rw [h.1]
    decide
  · exact (manageCacheSize_evicts_oldest_fifth 0 sixDynamic).2 (by decide)

/-- C6: a run of the cache size governor never changes the static tier or
the heritage tier, whatever the usage: eviction is confined to the dynamic
tier. -/
theorem manageCacheSize_frame (usage : Nat) (s : CacheState) :
    (manageCacheSize usage s).static = s.static ∧
    (manageCacheSize usage s).heritage = s.heritage := by
  unfold manageCacheSize
  split <;> exact ⟨rfl, rfl⟩

/-! ## Claims about lifecycle and the fetch listener -/

/-- A set of cache names present at activation time: one tier of an older
build tag next to the three current tiers. -/
def demoCacheNames : List String :=
  ["bharatvrsh-static-v1.1.0", STATIC_CACHE, DYNAMIC_CACHE, HERITAGE_CACHE]

/-- C9: activation deletes exactly the caches whose name is not one of the
three current versioned tier names and retains those three; a name carrying
an old build tag differs from all three, so it is deleted. -/
theorem activate_cleanup (cacheNames : List String) (n : String)
    (h : n ∈ cacheNames) :
    (n ∈ activateSurvivors cacheNames ↔
      (n = STATIC_CACHE ∨ n = DYNAMIC_CACHE ∨ n = HERITAGE_CACHE)) ∧
    (n ∈ activateDeleted cacheNames ↔
      ¬(n = STATIC_CACHE ∨ n = DYNAMIC_CACHE ∨ n = HERITAGE_CACHE)) := by
  constructor
  · rw [activateSurvivors, List.mem_filter]
    simp [isStaleCache, h]
    tauto
  · rw [activateDeleted, List.mem_filter]
    simp [isStaleCache, h, not_or]
    tauto

/-- Witness for C9: among the demo names, the old-tag cache is deleted and
the current static tier survives. -/
theorem activate_cleanup_witness :
    "bharatvrsh-static-v1.1.0" ∈ activateDeleted demoCacheNames ∧
    STATIC_CACHE ∈ activateSurvivors demoCacheNames := by
  constructor
  · exact (activate_cleanup demoCacheNames "bharatvrsh-static-v1.1.0"
      (by decide)).2.mpr (by decide)
  · exact (activate_cleanup demoCacheNames STATIC_CACHE
      (by decide)).1.mpr (Or.inl rfl)

/-- C1 is wrong about the code (code bug): a navigation request that fails
on the network with neither /index.html nor /offline.html cached resolves
to undefined, not to the inline offline HTML document.  The source joins
caches.match of /offline.html with the inline document using the
JavaScript or-operator, but caches.match returns a promise, which is
always truthy, so the inline document is unreachable and respondWith
receives undefined (an absent response). -/
theorem navigation_offline_fallback_bug :
    (handleFetchRequest noNet emptyCache navRequest).result
        = HandlerResult.noResponse ∧
    (handleFetchRequest noNet emptyCache navRequest).result
        ≠ HandlerResult.success inlineOfflineHtml := by
  decide

/-- C7: a request whose method is not GET is never answered by the service
worker: the fetch listener returns without calling respondWith, so no
handler runs, no cache tier is read or written, and the browser sends the
request straight to the network; the cache state after the event is the
state before it. -/
theorem non_get_passthrough (net : Network) (s : CacheState) (req : Request)
    (h : req.method ≠ "GET") :
    fetchListener net s req = FetchDecision.passthrough ∧
    (fetchListener net s req).stateAfter s = s := by
  have hb : (req.method != "GET") = true := bne_iff_ne.mpr h
  constructor <;> simp [fetchListener, hb, FetchDecision.stateAfter]

/-- Witness for C7: a POST to the API endpoint passes through and leaves
the empty cache empty. -/
theorem non_get_passthrough_witness :
    fetchListener noNet emptyCache postRequest = FetchDecision.passthrough ∧
    (fetchListener noNet emptyCache postRequest).stateAfter emptyCache
        = emptyCache :=
  non_get_passthrough noNet emptyCache postRequest (by decide)

/-! ## Claims about the static-asset and API strategies -/

/-- A cache storage whose static tier already holds the stylesheet. -/
def cssCached : CacheState := ⟨[(cssUrl.href, okCss)], [], []⟩

/-- C3: a GET request classified static-asset is cache-first: a cached
copy is returned with no network call and an unchanged cache; on a miss
the network is fetched, an ok response is stored into the static tier (the
record update touches only the static field, so the other tiers are
untouched) and that same response is returned. -/
theorem static_asset_cache_first (net : Network) (s : CacheState)
    (req : Request) (hclass : isStaticAsset req.url = true) :
    (∀ r, s.matchAll req.key = some r →
      handleFetchRequest net s req = ⟨.success r, s, false⟩) ∧
    (∀ nr, s.matchAll req.key = none → net req.key = some nr →
      nr.ok = true →
      handleFetchRequest net s req =
        ⟨.success nr, { s with static := s.static.put req.key nr }, true⟩) := by
  have hd : handleFetchRequest net s req = handleStaticAsset net s req := by
    simp [handleFetchRequest, hclass]
  constructor
  · intro r hr
    simp [hd, handleStaticAsset, hr]
  · intro nr h1 h2 hok
    simp [hd, handleStaticAsset, h1, h2, hok]

/-- Witness for C3: the stylesheet request is served from the cache with
no network call when cached, and on an empty cache the 200 stylesheet
response is fetched, stored into the static tier and returned. -/
theorem static_asset_cache_first_witness :
    handleFetchRequest cssNet cssCached cssRequest
        = ⟨HandlerResult.success okCss, cssCached, false⟩ ∧
    handleFetchRequest cssNet emptyCache cssRequest
        = ⟨HandlerResult.success okCss, ⟨[(cssRequest.key, okCss)], [], []⟩,
           true⟩ := by
  constructor
  · exact (static_asset_cache_first cssNet cssCached cssRequest
      (by decide)).1 okCss (by decide)
  · have h := (static_asset_cache_first cssNet emptyCache cssRequest
      (by decide)).2 okCss (by decide) (by decide) (by decide)
    rw [h]
    decide

/-- C4: a request reaching the API strategy always attempts the network
first; a settled network response is returned as is, and stored into the
dynamic tier when it is ok and the method is GET; on a rejected fetch a
cached copy is returned if one exists, else the synthesized offline JSON
response with fixed status 503; the failure is never propagated (the
handler never resolves to a thrown error or an absent response). -/
theorem api_network_first (net : Network) (s : CacheState) (req : Request)
    (h1 : isStaticAsset req.url = false) (h2 : isAPIRequest req.url = true) :
    (handleFetchRequest net s req).networkCalled = true ∧
    (∀ nr, net req.key = some nr →
      (handleFetchRequest net s req).result = HandlerResult.success nr ∧
      (nr.ok = true → req.method = "GET" →
        (handleFetchRequest net s req).state.dynamic
            = s.dynamic.put req.key nr)) ∧
    (∀ r, net req.key = none → s.matchAll req.key = some r →
      handleFetchRequest net s req = ⟨HandlerResult.success r, s, true⟩) ∧
    (net req.key = none → s.matchAll req.key = none →
      handleFetchRequest net s req
          = ⟨HandlerResult.success offlineApiResponse, s, true⟩ ∧
      offlineApiResponse.status = 503) ∧
    (handleFetchRequest net s req).result ≠ HandlerResult.thrown ∧
    (handleFetchRequest net s req).result ≠ HandlerResult.noResponse := by
  have hd : handleFetchRequest net s req = handleAPIRequest net s req := by
    simp [handleFetchRequest, h1, h2]
  rw [hd]
  unfold handleAPIRequest
  refine ⟨?_, ?_, ?_, ?_, ?_, ?_⟩
  · split
    · rfl
    · split <;> rfl
  · intro nr hnr
    rw [hnr]
    refine ⟨rfl, ?_⟩
    intro hok hm
    simp [hok, hm]
  · intro r hnone hm
    rw [hnone, hm]
  · intro hnone hm
    rw [hnone, hm]
    exact ⟨rfl, rfl⟩
  · split
    · simp
    · split <;> simp
  · split
    · simp
    · split <;> simp

/-- Witness for C4: the API request on a dead network with an empty cache
yields the synthesized offline JSON response with status 503. -/
theorem api_network_first_witness :
    handleFetchRequest noNet emptyCache apiRequest
        = ⟨HandlerResult.success offlineApiResponse, emptyCache, true⟩ ∧
    offlineApiResponse.status = 503 :=
  (api_network_first noNet emptyCache apiRequest (by decide)
    (by decide)).2.2.2.1 (by decide) (by decide)

/-! ## Shapes of the post-handler cache states -/

theorem tier_sub_refl (t : Tier) : ∀ e ∈ t, e ∈ t ∨ e.2.ok = true :=
  fun _ he => Or.inl he

theorem tier_sub_put (t : Tier) (k : String) (r : Response)
    (hok : r.ok = true) :
    ∀ e ∈ Tier.put t k r, e ∈ t ∨ e.2.ok = true := by
  intro e he
  rcases Tier.mem_put t k r e he with h | h
  · exact Or.inl h
  · right
    rw [h]
    exact hok

theorem handleStaticAsset_state_cases (net : Network) (s : CacheState)
    (req : Request) :
    (handleStaticAsset net s req).state = s ∨
    ∃ nr, net req.key = some nr ∧ nr.ok = true ∧
      (handleStaticAsset net s req).state
          = { s with static := s.static.put req.key nr } := by
  unfold handleStaticAsset
  rcases hm : s.matchAll req.key with _ | r
  · rcases hn : net req.key with _ | nr
    · left
      simp only [hm, hn]
      split
      · split <;> rfl
      · rfl
    · cases hok : nr.ok
      · left
        simp only [hm, hn, hok]
        rfl
      · right
        refine ⟨nr, rfl, hok, ?_⟩
        simp only [hm, hn]
        rw [if_pos hok]
  · left
    simp only [hm]

theorem handleAPIRequest_state_cases (net : Network) (s : CacheState)
    (req : Request) :
    (handleAPIRequest net s req).state = s ∨
    ∃ nr, net req.key = some nr ∧ nr.ok = true ∧
      (handleAPIRequest net s req).state
          = { s with dynamic := s.dynamic.put req.key nr } := by
  unfold handleAPIRequest
  rcases hn : net req.key with _ | nr
  · left
    rcases hm : s.matchAll req.key with _ | r <;> simp only [hn, hm]
  · cases hg : (nr.ok && (req.method == "GET"))
    · left
      simp only [hn, hg]
      rfl
    · right
      refine ⟨nr, rfl, ((Bool.and_eq_true _ _).mp hg).1, ?_⟩
      simp only [hn]
      rw [if_pos hg]

theorem handleHeritageContent_state_cases (net : Network) (s : CacheState)
    (req : Request) :
    (handleHeritageContent net s req).state = s ∨
    ∃ nr, net req.key = some nr ∧ nr.ok = true ∧
      (handleHeritageContent net s req).state
          = { s with heritage := s.heritage.put req.key nr } := by
  unfold handleHeritageContent
  rcases hm : s.matchAll req.key with _ | r
  · rcases hn : net req.key with _ | nr
    · left
      simp only [hm, hn]
    · cases hok : nr.ok
      · left
        simp only [hm, hn, hok]
        rfl
      · right
        refine ⟨nr, rfl, hok, ?_⟩
        simp only [hm, hn]
        rw [if_pos hok]
  · left
    simp only [hm]

theorem handleNavigation_state_eq (net : Network) (s : CacheState)
    (req : Request) : (handleNavigation net s req).state = s := by
  unfold handleNavigation
  rcases hn : net req.key with _ | nr
  · rcases hm : s.matchAll "/index.html" with _ | r
    · rcases ho : s.matchAll "/offline.html" with _ | r <;> simp only [hn, hm, ho]
    · simp only [hn, hm]
  · simp only [hn]

theorem handleDefault_state_cases (net : Network) (s : CacheState)
    (req : Request) :
    (handleDefault net s req).state = s ∨
    ∃ nr, net req.key = some nr ∧ nr.ok = true ∧
      (handleDefault net s req).state
          = { s with dynamic := s.dynamic.put req.key nr } := by
  unfold handleDefault
  rcases hn : net req.key with _ | nr
  · left
    rcases hm : s.matchAll req.key with _ | r <;> simp only [hn, hm]
  · cases hok : nr.ok
    · left
      simp only [hn, hok]
      rfl
    · right
      refine ⟨nr, rfl, hok, ?_⟩
      simp only [hn]
      rw [if_pos hok]

/-- C2: whatever strategy a GET request is dispatched to, every entry of
every tier after the handler ran was either already cached before or
carries an ok (2xx) status: no strategy ever stores a failed response in
any tier. -/
theorem only_ok_responses_cached (net : Network) (s : CacheState)
    (req : Request) :
    (∀ e ∈ (handleFetchRequest net s req).state.static,
        e ∈ s.static ∨ e.2.ok = true) ∧
    (∀ e ∈ (handleFetchRequest net s req).state.dynamic,
        e ∈ s.dynamic ∨ e.2.ok = true) ∧
    (∀ e ∈ (handleFetchRequest net s req).state.heritage,
        e ∈ s.heritage ∨ e.2.ok = true) := by
  unfold handleFetchRequest
  split
  · rcases handleStaticAsset_state_cases net s req with h | ⟨nr, _, hok, h⟩
    · rw [h]
      exact ⟨tier_sub_refl _, tier_sub_refl _, tier_sub_refl _⟩
    · rw [h]
      exact ⟨tier_sub_put _ _ _ hok, tier_sub_refl _, tier_sub_refl _⟩
  · split
    · rcases handleAPIRequest_state_cases net s req with h | ⟨nr, _, hok, h⟩
      · rw [h]
        exact ⟨tier_sub_refl _, tier_sub_refl _, tier_sub_refl _⟩
      · rw [h]
        exact ⟨tier_sub_refl _, tier_sub_put _ _ _ hok, tier_sub_refl _⟩
    · split
      · rcases handleHeritageContent_state_cases net s req with h | ⟨nr, _, hok, h⟩
        · rw [h]
          exact ⟨tier_sub_refl _, tier_sub_refl _, tier_sub_refl _⟩
        · rw [h]
          exact ⟨tier_sub_refl _, tier_sub_refl _, tier_sub_put _ _ _ hok⟩
      · split
        · rw [handleNavigation_state_eq net s req]
          exact ⟨tier_sub_refl _, tier_sub_refl _, tier_sub_refl _⟩
        · rcases handleDefault_state_cases net s req with h | ⟨nr, _, hok, h⟩
          · rw [h]
            exact ⟨tier_sub_refl _, tier_sub_refl _, tier_sub_refl _⟩
          · rw [h]
            exact ⟨tier_sub_refl _, tier_sub_put _ _ _ hok, tier_sub_refl _⟩

/-- Witness for C2: the stylesheet fetched into the static tier on an
empty cache is an entry with an ok status. -/
theorem only_ok_responses_cached_witness :
    (cssRequest.key, okCss) ∈ (handleFetchRequest cssNet emptyCache cssRequest).state.static ∧
    ((cssRequest.key, okCss) ∈ emptyCache.static ∨ okCss.ok = true) := by
  have hmem : (cssRequest.key, okCss)
      ∈ (handleFetchRequest cssNet emptyCache cssRequest).state.static := by
    decide
  exact ⟨hmem, (only_ok_responses_cached cssNet emptyCache cssRequest).1
    (cssRequest.key, okCss) hmem⟩

/-! ## Claims about the deferred sync queues -/

/-- The flush loop only filters the store: an item survives exactly when
no delivered item of the walked snapshot carries its id. -/
theorem flushLoop_filter (f : Item → Bool) (items store : List Item) :
    flushLoop f items store
        = store.filter (fun x => !(items.any (fun d => f d && x.id == d.id))) := by
  induction items generalizing store with
  | nil => simp [flushLoop]
  | cons d rest ih =>
    show flushLoop f rest (if f d then removeStoredData store d.id else store) = _
    rw [ih]
    cases hd : f d
    · rw [if_neg (by simp [hd])]
      apply List.filter_congr
      intro x _
      simp [hd]
    · rw [if_pos rfl]
      unfold removeStoredData
      rw [List.filter_filter]
      apply List.filter_congr
      intro x _
      simp [hd, Bool.not_or, bne, Bool.and_comm]

/-- The two queues of interest, flushed with the demo delivery oracle. -/
def demoStore : List Item := [⟨1, "update-a"⟩, ⟨2, "update-b"⟩]

/-- A delivery oracle under which only the item with id 1 goes through. -/
def demoDeliver : Item → Bool := fun d => d.id == 1

/-- C8: in one flush pass over either deferred queue, an item whose
delivery succeeds is removed from the queue, and an item whose delivery
fails stays queued — the failure is caught per item, so it never aborts
the processing of the other items, whose outcomes are unaffected.  Ids
are assumed distinct, as they key the backing store. -/
theorem deferred_queue_flush (deliver : Item → Bool) (store : List Item)
    (hids : (store.map Item.id).Nodup) (x : Item) (hx : x ∈ store) :
    (deliver x = true →
      x ∉ syncHeritageData deliver store ∧
      x ∉ syncUserFeedback deliver store) ∧
    (deliver x = false →
      x ∈ syncHeritageData deliver store ∧
      x ∈ syncUserFeedback deliver store) := by
  have hchar1 : syncHeritageData deliver store
      = store.filter (fun y => !(store.any (fun d => deliver d && y.id == d.id))) :=
    flushLoop_filter deliver store store
  have hchar2 : syncUserFeedback deliver store
      = store.filter (fun y => !(store.any (fun d => deliver d && y.id == d.id))) :=
    flushLoop_filter deliver store store
  constructor
  · intro hdel
    have hany : store.any (fun d => deliver d && x.id == d.id) = true :=
      List.any_eq_true.mpr ⟨x, hx, by simp [hdel]⟩
    have hnot : x ∉ store.filter
        (fun y => !(store.any (fun d => deliver d && y.id == d.id))) := by
      intro hmem
      have h2 := (List.mem_filter.mp hmem).2
      rw [hany] at h2
      simp at h2
    exact ⟨hchar1 ▸ hnot, hchar2 ▸ hnot⟩
  · intro hdel
    have hany : store.any (fun d => deliver d && x.id == d.id) = false := by
      rw [List.any_eq_false]
      intro d hd
      by_cases hdx : d = x
      · subst hdx
        simp [hdel]
      · have hne : x.id ≠ d.id := by
          intro hid
          exact hdx (List.inj_on_of_nodup_map hids hd hx hid.symm)
        simp [hne]
    have hmem : x ∈ store.filter
        (fun y => !(store.any (fun d => deliver d && y.id == d.id))) :=
      List.mem_filter.mpr ⟨hx, by rw [hany]; rfl⟩
    exact ⟨hchar1 ▸ hmem, hchar2 ▸ hmem⟩

/-- Witness for C8: flushing the two-item demo queue removes the item
whose delivery succeeds and keeps the one whose delivery fails. -/
theorem deferred_queue_flush_witness :
    (⟨1, "update-a"⟩ : Item) ∉ syncHeritageData demoDeliver demoStore ∧
    (⟨2, "update-b"⟩ : Item) ∈ syncHeritageData demoDeliver demoStore := by
  constructor
  · exact ((deferred_queue_flush demoDeliver demoStore (by decide)
      ⟨1, "update-a"⟩ (by decide)).1 (by decide)).1
  · exact ((deferred_queue_flush demoDeliver demoStore (by decide)
      ⟨2, "update-b"⟩ (by decide)).2 (by decide)).1

/-! ## Claims about the heritage bundle message -/

theorem cacheOneUrl_only_ok (net : Network) (s : CacheState) (u : String) :
    ∀ e ∈ (cacheOneUrl net s u).heritage, e ∈ s.heritage ∨ e.2.ok = true := by
  unfold cacheOneUrl
  rcases hn : net u with _ | r
  · exact tier_sub_refl _
  · cases hok : r.ok
    · simpa [hok] using tier_sub_refl s.heritage
    · dsimp only
      rw [if_pos hok]
      exact tier_sub_put _ _ _ hok

theorem cacheOneUrl_frame (net : Network) (s : CacheState) (u : String) :
    (cacheOneUrl net s u).static = s.static ∧
    (cacheOneUrl net s u).dynamic = s.dynamic := by
  unfold cacheOneUrl
  rcases hn : net u with _ | r
  · exact ⟨rfl, rfl⟩
  · cases hok : r.ok
    · simp [hok]
    · dsimp only
      rw [if_pos hok]
      exact ⟨rfl, rfl⟩

theorem cacheOneUrl_preserves (net : Network) (s : CacheState)
    (u u' : String) (r : Response) (hnet : net u = some r)
    (hm : (u, r) ∈ s.heritage) :
    (u, r) ∈ (cacheOneUrl net s u').heritage := by
  unfold cacheOneUrl
  rcases hn : net u' with _ | r'
  · exact hm
  · by_cases hu : u' = u
    · subst hu
      rw [hnet] at hn
      injection hn with h
      subst h
      cases hok : r.ok
      · simpa [hok] using hm
      · dsimp only
        rw [if_pos hok]
        exact Tier.put_mem_self _ _ _
    · cases hok : r'.ok
      · simpa [hok] using hm
      · dsimp only
        rw [if_pos hok]
        exact Tier.put_mem_of_ne _ _ _ _ _ (fun h => hu h.symm) hm

theorem foldCache_preserves (net : Network) (urls : List String)
    (s : CacheState) (u : String) (r : Response) (hnet : net u = some r)
    (hm : (u, r) ∈ s.heritage) :
    (u, r) ∈ (urls.foldl (cacheOneUrl net) s).heritage := by
  induction urls generalizing s with
  | nil => exact hm
  | cons u0 rest ih =>
    exact ih (cacheOneUrl net s u0) (cacheOneUrl_preserves net s u u0 r hnet hm)

theorem foldCache_mem (net : Network) (urls : List String) (s : CacheState)
    (u : String) (r : Response) (hu : u ∈ urls) (hnet : net u = some r)
    (hok : r.ok = true) :
    (u, r) ∈ (urls.foldl (cacheOneUrl net) s).heritage := by
  induction urls generalizing s with
  | nil => cases hu
  | cons u0 rest ih =>
    rcases List.mem_cons.mp hu with h | h
    · subst h
      apply foldCache_preserves net rest _ u r hnet
      unfold cacheOneUrl
      rw [hnet]
      dsimp only
      rw [if_pos hok]
      exact Tier.put_mem_self _ _ _
    · exact ih (cacheOneUrl net s u0) h

/-- A bundle with one present image URL, a null thumbnail, a present model
URL and no audio list. -/
def demoSite : SiteData :=
  ⟨"bateshwar", some "/assets/images/bateshwar-featured.jpg", none,
   some "/assets/models/bateshwar_temple.glb", none⟩

def okJpg : Response := ⟨200, "jpg-bytes", "image/jpeg"⟩

/-- A network oracle answering only the bundle image URL; the model fetch
rejects. -/
def demoBundleNet : Network :=
  fun k => if k == "/assets/images/bateshwar-featured.jpg" then some okJpg
           else none

/-- C10: handling a CACHE_HERITAGE_SITE bundle skips absent, null and
empty URL slots (every URL actually processed is a present non-empty URL
of the bundle); each remaining URL whose fetch settles ok is stored into
the heritage tier regardless of what happens to the other URLs of the
bundle (per-URL failures are caught); only ok responses are ever added;
and the static and dynamic tiers are untouched.  The whole handler is a
total function of the state, so no error reaches the message sender. -/
theorem heritage_bundle_cached_independently (net : Network)
    (s : CacheState) (d : SiteData) :
    (∀ u ∈ urlsToCache d,
      some u ∈ ([d.imageUrl, d.thumbnailUrl, d.modelUrl]
          ++ d.audioUrls.getD []) ∧ u ≠ "") ∧
    (∀ u r, u ∈ urlsToCache d → net u = some r → r.ok = true →
      (u, r) ∈ (cacheHeritageSite net s d).heritage) ∧
    (∀ e ∈ (cacheHeritageSite net s d).heritage,
      e ∈ s.heritage ∨ e.2.ok = true) ∧
    (cacheHeritageSite net s d).static = s.static ∧
    (cacheHeritageSite net s d).dynamic = s.dynamic := by
  refine ⟨?_, ?_, ?_, ?_⟩
  · intro u hu
    unfold urlsToCache at hu
    obtain ⟨o, ho, hid⟩ := List.mem_filterMap.mp hu
    obtain ⟨ho1, ho2⟩ := List.mem_filter.mp ho
    cases o with
    | none => cases hid
    | some v =>
      cases hid
      refine ⟨ho1, ?_⟩
      simpa [jsTruthy] using ho2
  · intro u r hu hnet hok
    exact foldCache_mem net (urlsToCache d) s u r hu hnet hok
  · unfold cacheHeritageSite
    generalize urlsToCache d = urls
    induction urls generalizing s with
    | nil => exact tier_sub_refl _
    | cons u0 rest ih =>
      intro e he
      rcases ih (cacheOneUrl net s u0) e he with h | h
      · exact cacheOneUrl_only_ok net s u0 e h
      · exact Or.inr h
  · unfold cacheHeritageSite
    generalize urlsToCache d = urls
    induction urls generalizing s with
    | nil => exact ⟨rfl, rfl⟩
    | cons u0 rest ih =>
      obtain ⟨h1, h2⟩ := ih (cacheOneUrl net s u0)
      obtain ⟨g1, g2⟩ := cacheOneUrl_frame net s u0
      exact ⟨h1.trans g1, h2.trans g2⟩

/-- Witness for C10: in the demo bundle the model fetch rejects, yet the
image, whose fetch settles with a 200, is cached into the heritage tier;
the null thumbnail contributes no URL. -/
theorem heritage_bundle_cached_independently_witness :
    ("/assets/images/bateshwar-featured.jpg", okJpg)
        ∈ (cacheHeritageSite demoBundleNet emptyCache demoSite).heritage ∧
    urlsToCache demoSite
        = ["/assets/images/bateshwar-featured.jpg",
           "/assets/models/bateshwar_temple.glb"] := by
  constructor
  · exact (heritage_bundle_cached_independently demoBundleNet emptyCache
      demoSite).2.1 "/assets/images/bateshwar-featured.jpg" okJpg
      (by decide) (by decide) (by decide)
  · decide

end SW
